import Mathlib

/-!
Verification development for the NBRA step-1 Quantum Espresso tutorial
(`6_dynamics/2_nbra_workflows/2_step1_qe/tutorial.ipynb`).

The notebook builds a textual input deck for the external `pw.x` binary,
writes it to `x0.md.in`, invokes the binary once with the deck on standard
input and `x0.md.out` as standard output, and then deletes scratch files.
The deck contents (all parameters, the two species rows, the three cell
vectors and the six atomic-position rows) are embedded below verbatim from
the notebook's `QE_input_file` literal.  The notebook has no named
functions, so the operations `buildDeck`, `writeDeck`, `execute` and
`cleanup` that the design document specifies are modelled from the
specification's words where marked, and from the notebook's cell code
otherwise.
-/

namespace QETutorial

/-- One row of the `ATOMIC_SPECIES` table: element name, atomic mass and
pseudopotential file name, exactly as in the notebook's deck. -/
structure SpeciesRow where
  name : String
  mass : String
  pseudoFile : String
deriving DecidableEq, Repr

/-- One row of the `ATOMIC_POSITIONS` table: atom label and three
coordinates (kept as the literal decimal strings of the notebook). -/
structure AtomRow where
  label : String
  x : String
  y : String
  z : String
deriving DecidableEq, Repr

/-- One row of the `CELL_PARAMETERS` matrix. -/
structure CellRow where
  x : String
  y : String
  z : String
deriving DecidableEq, Repr

/-- The SimulationDeck entity of the design document: a mapping from
section to parameter values.  Scalar parameters are ordered key/value
lists; `nat` and `ntyp` (the declared atom count and species-type count)
are explicit numeric fields because the count invariant speaks about
them; the tables are ordered rows. -/
structure SimulationDeck where
  /-- `&CONTROL` key/value pairs, in deck order. -/
  control : List (String × String)
  /-- `&SYSTEM` key/value pairs preceding `nat` (just `ibrav` here). -/
  systemA : List (String × String)
  /-- declared total number of atoms (`nat`). -/
  nat : Nat
  /-- declared number of atom types (`ntyp`). -/
  ntyp : Nat
  /-- `&SYSTEM` key/value pairs following `ntyp`. -/
  systemB : List (String × String)
  /-- `&ELECTRONS` key/value pairs. -/
  electrons : List (String × String)
  /-- `&IONS` key/value pairs. -/
  ions : List (String × String)
  /-- `ATOMIC_SPECIES` rows. -/
  species : List SpeciesRow
  /-- the `K_POINTS` option (`gamma` in the notebook). -/
  kpointsSpec : String
  /-- unit annotation of `CELL_PARAMETERS` (`angstrom`). -/
  cellUnits : String
  /-- the 3×3 cell-vector rows. -/
  cellVectors : List CellRow
  /-- unit annotation of `ATOMIC_POSITIONS` (`angstrom`). -/
  posUnits : String
  /-- the atomic-coordinate rows. -/
  positions : List AtomRow
deriving DecidableEq, Repr

/-- The §3 count invariant: the declared atom count equals the number of
coordinate rows and the declared species-type count equals the number of
distinct species rows. -/
def deckValid (d : SimulationDeck) : Prop :=
  d.nat = d.positions.length ∧ d.ntyp = d.species.dedup.length

instance (d : SimulationDeck) : Decidable (deckValid d) := by
  unfold deckValid; infer_instance

/-- Render one `key = value,` line of a namelist section, with the
two-space indent used by the deck grammar. -/
def renderKV (kv : String × String) : String :=
  "  " ++ kv.1 ++ " = " ++ kv.2 ++ ","

/-- Render a namelist section: marker-prefixed header, `key = value,`
lines, section-closing marker `/`. -/
def renderNamelist (name : String) (kvs : List (String × String)) : List String :=
  ("&" ++ name) :: (kvs.map renderKV ++ ["/"])

/-- Render one `ATOMIC_SPECIES` row. -/
def renderSpecies (s : SpeciesRow) : String :=
  s.name ++ " " ++ s.mass ++ " " ++ s.pseudoFile

/-- Render one `CELL_PARAMETERS` row. -/
def renderCell (c : CellRow) : String :=
  "  " ++ c.x ++ " " ++ c.y ++ " " ++ c.z

/-- Render one `ATOMIC_POSITIONS` row. -/
def renderAtom (a : AtomRow) : String :=
  a.label ++ " " ++ a.x ++ " " ++ a.y ++ " " ++ a.z

/-- The scalar key/value pairs of the `&SYSTEM` section, with the declared
counts `nat` and `ntyp` in their deck position. -/
def systemKVs (d : SimulationDeck) : List (String × String) :=
  d.systemA ++ [("nat", toString d.nat), ("ntyp", toString d.ntyp)] ++ d.systemB

/-- The deck text as a list of lines, in the fixed section order of the
notebook's deck: the four namelists, then the species table, the k-point
line, the cell matrix and the coordinate table, with blank separator
lines between sections. -/
def deckLines (d : SimulationDeck) : List String :=
  [""]
    ++ renderNamelist "CONTROL" d.control ++ [""]
    ++ renderNamelist "SYSTEM" (systemKVs d) ++ [""]
    ++ renderNamelist "ELECTRONS" d.electrons ++ [""]
    ++ renderNamelist "IONS" d.ions ++ [""]
    ++ ["ATOMIC_SPECIES"] ++ d.species.map renderSpecies ++ [""]
    ++ ["K_POINTS " ++ d.kpointsSpec] ++ [""]
    ++ ["CELL_PARAMETERS " ++ d.cellUnits] ++ d.cellVectors.map renderCell ++ [""]
    ++ ["ATOMIC_POSITIONS " ++ d.posUnits] ++ d.positions.map renderAtom

/-- The serialized deck text, a single string, trailing newline included. -/
def deckText (d : SimulationDeck) : String :=
  String.intercalate "\n" (deckLines d) ++ "\n"

/-- The error taxonomy of §7 that the deck builder can raise. -/
inductive DeckError where
  | malformedDeck
deriving DecidableEq, Repr

/-- Modelled from the spec: the notebook bakes the deck into a literal
string and has no builder function, so `buildDeck` follows §4.1/§4.2 of
the design document: it validates the §3 count invariant, failing with
`MalformedDeckError` (and producing no output text) when it is violated,
and otherwise serializes the deck to a single text blob. -/
def buildDeck (d : SimulationDeck) : Except DeckError String :=
  if deckValid d then .ok (deckText d) else .error .malformedDeck

/-- The concrete deck of the notebook's `QE_input_file` literal: a TiO₂
anatase unit cell, 6 atoms (2 Ti, 4 O), 2 species, 100 MD steps. -/
def sourceDeck : SimulationDeck where
  control :=
    [ ("calculation", "\x27md\x27"),
      ("nstep", "100"),
      ("dt", "20.67055"),
      ("pseudo_dir", "\x27/gpfs/scratch/brendan/nbra_tutorial/run_QE/\x27"),
      ("outdir", "\x27./\x27"),
      ("prefix", "\x27x0\x27"),
      ("disk_io", "\x27low\x27") ]
  systemA := [("ibrav", "0")]
  nat := 6
  ntyp := 2
  systemB :=
    [ ("nspin", "1"),
      ("ecutwfc", "30"),
      ("ecutrho", "300"),
      ("occupations", "\x27smearing\x27"),
      ("smearing", "\x27gaussian\x27"),
      ("degauss", "0.01"),
      ("nosym", "true") ]
  electrons :=
    [ ("electron_maxstep", "300"),
      ("conv_thr", "1.D-4"),
      ("mixing_beta", "0.30") ]
  ions :=
    [ ("ion_dynamics", "\x27verlet\x27"),
      ("ion_temperature", "\x27andersen\x27"),
      ("tempw", "300"),
      ("nraise", "10"),
      ("pot_extrapolation", "\x27second-order\x27"),
      ("wfc_extrapolation", "\x27second-order\x27") ]
  species :=
    [ ⟨"Ti", "47.867", "Ti.pbe-spn-rrkjus_psl.1.0.0.UPF"⟩,
      ⟨"O", "15.999", "O.pbe-n-rrkjus_psl.1.0.0.UPF"⟩ ]
  kpointsSpec := "gamma"
  cellUnits := "angstrom"
  cellVectors :=
    [ ⟨"4.6067771912", "0.0000000000", "0.0000000000"⟩,
      ⟨"0.0000000000", "4.6067771912", "0.0000000000"⟩,
      ⟨"0.0000000000", "0.0000000000", "2.9917566776"⟩ ]
  posUnits := "angstrom"
  positions :=
    [ ⟨"Ti", "0.000000000", "0.000000000", "0.000000000"⟩,
      ⟨"Ti", "2.303388596", "2.303388596", "1.495878339"⟩,
      ⟨"O", "3.204133272", "3.204133272", "0.000000000"⟩,
      ⟨"O", "1.402643919", "1.402643919", "0.000000000"⟩,
      ⟨"O", "0.900744736", "3.706032515", "1.495878339"⟩,
      ⟨"O", "3.706032515", "0.900744736", "1.495878339"⟩ ]

/-- The notebook's deck with one coordinate row removed while the
declared atom count stays 6 (the mutation of the concrete scenario). -/
def truncatedDeck : SimulationDeck :=
  { sourceDeck with positions := sourceDeck.positions.take 5 }

/-- `beginsWith pat cs`: the character list `cs` starts with `pat`. -/
def beginsWith : List Char → List Char → Bool
  | [], _ => true
  | _ :: _, [] => false
  | p :: ps, c :: cs => p == c && beginsWith ps cs

/-- `hasSubseg pat cs`: `pat` occurs as a contiguous segment of `cs`. -/
def hasSubseg (pat : List Char) : List Char → Bool
  | [] => beginsWith pat []
  | c :: cs => beginsWith pat (c :: cs) || hasSubseg pat cs

/-- `strContains s pat`: the string `pat` occurs inside the string `s`. -/
def strContains (s pat : String) : Bool :=
  hasSubseg pat.toList s.toList

/-- The rows of the table that follows the header line `header`: the lines
after the first occurrence of `header`, up to the next blank separator
line (or the end of the deck). -/
def rowsAfter (ls : List String) (header : String) : List String :=
  (((ls.dropWhile (fun l => !(l == header))).drop 1).takeWhile (fun l => !(l == "")))

/-- The header line of each declared section of a deck, in deck order:
one marker-prefixed header per namelist and one table header per tabular
block. -/
def sectionHeaders (d : SimulationDeck) : List String :=
  [ "&CONTROL", "&SYSTEM", "&ELECTRONS", "&IONS",
    "ATOMIC_SPECIES",
    "K_POINTS " ++ d.kpointsSpec,
    "CELL_PARAMETERS " ++ d.cellUnits,
    "ATOMIC_POSITIONS " ++ d.posUnits ]

/-- Every non-header line the serializer can emit for the deck `d`: the
rendered key/value lines, the table rows, the namelist-closing marker and
the blank separator. -/
def bodyLines (d : SimulationDeck) : List String :=
  (d.control ++ systemKVs d ++ d.electrons ++ d.ions).map renderKV
    ++ d.species.map renderSpecies
    ++ d.cellVectors.map renderCell
    ++ d.positions.map renderAtom
    ++ ["/", ""]

/-- Sanity of the deck's string-valued fields: the eight section headers
are pairwise distinct and no rendered body line collides with a header
(true of every deck whose field values are ordinary parameter text, and
in particular of the notebook's deck). -/
def deckWf (d : SimulationDeck) : Prop :=
  (sectionHeaders d).Nodup ∧ ∀ l ∈ bodyLines d, l ∉ sectionHeaders d

instance (d : SimulationDeck) : Decidable (deckWf d) := by
  unfold deckWf; infer_instance

/- ### Runner: file write (from the notebook's `open`/`write`/`close` cell) -/

/-- Write-step errors: the path is unwritable (`IOError` at `open`), or
the write call itself fails. -/
inductive WriteError where
  | ioUnwritable
  | writeFailed
deriving DecidableEq, Repr

/-- The environment a write step runs against: whether the target path is
writable and whether the write call succeeds. -/
structure WriteRun where
  pathWritable : Bool
  writeSucceeds : Bool
deriving DecidableEq, Repr

/-- The observable outcome of the write step: whether a handle was
acquired, whether it was closed by the end, and the propagated error. -/
structure HandleState where
  opened : Bool
  closed : Bool
  error : Option WriteError
deriving DecidableEq, Repr

/-- The notebook's write step, embedded statement by statement:
`f = open("x0.md.in","w")` raises `IOError` when the path is unwritable
(no handle acquired); otherwise `f.write(QE_input_file)` runs, and when
it raises, the exception propagates so the final `f.close()` line is
never reached; only on the successful path is the handle closed. -/
def writeDeckRun (r : WriteRun) : HandleState :=
  if !r.pathWritable then
    { opened := false, closed := false, error := some .ioUnwritable }
  else if !r.writeSucceeds then
    { opened := true, closed := false, error := some .writeFailed }
  else
    { opened := true, closed := true, error := none }

/- ### Runner: file contents (for the round-trip property) -/

/-- A file store: each path maps to the content it holds, if any. -/
def FileStore : Type := String → Option String

/-- Writing `text` to `path` (mode `"w"`: the file is created or
truncated and receives exactly `text`). -/
def writeFile (fs : FileStore) (path text : String) : FileStore :=
  fun p => if p = path then some text else fs p

/-- Reading the content a path currently holds. -/
def readFile (fs : FileStore) (path : String) : Option String :=
  fs path

/- ### Runner: external process invocation -/

/-- Process-launch errors of §7. -/
inductive ProcError where
  | launchError
deriving DecidableEq, Repr

/-- The external binary as this layer sees it: whether it can be located
and executed, and the exit code it terminates with. -/
structure ExternalProcess where
  launchable : Bool
  exitCode : Int
deriving DecidableEq, Repr

/-- Modelled from the spec: the notebook's `!pw.x < x0.md.in > x0.md.out`
shell line has no named wrapper, so `execute` follows §4.2: it blocks
until the external process terminates and returns its exit code
unmodified; it fails with `ProcessLaunchError` only when the binary
cannot be located/executed, and a non-zero exit code is returned, not
raised. -/
def execute (p : ExternalProcess) : Except ProcError Int :=
  if p.launchable then .ok p.exitCode else .error .launchError

/- ### Runner: cleanup (glob deletion) -/

/-- Fuel-indexed glob matcher: `*` matches any (possibly empty) run of
characters, every other pattern character matches itself.  Each call
shortens the pattern or the candidate, so fuel above their combined
length is never exhausted. -/
def globFuel : Nat → List Char → List Char → Bool
  | 0, _, _ => false
  | _ + 1, [], s => s.isEmpty
  | n + 1, p :: ps, [] => p == '*' && globFuel n ps []
  | n + 1, p :: ps, c :: cs =>
    if p == '*' then globFuel n ps (c :: cs) || globFuel n (p :: ps) cs
    else p == c && globFuel n ps cs

/-- Glob matching on character lists, with always-sufficient fuel. -/
def globMatchL (ps s : List Char) : Bool :=
  globFuel (ps.length + s.length + 1) ps s

/-- Glob matching on file names. -/
def globMatch (pat file : String) : Bool :=
  globMatchL pat.toList file.toList

/-- Modelled from the spec: `clean.sh` itself is not in the repository
(only its invocation and its recorded `rm` output are), so `cleanup`
follows §4.2/§9: for each pattern it checks for matching files and
deletes them, and a pattern matching zero files is a no-op, not an
error (check-then-skip). -/
def cleanupStep (fs : List String) (pat : String) : List String :=
  if fs.any (fun f => globMatch pat f) then
    fs.filter (fun f => !globMatch pat f)
  else
    fs

/-- Deleting every existing file matching each pattern, pattern by
pattern. -/
def cleanup (pats : List String) (fs : List String) : List String :=
  pats.foldl cleanupStep fs

/- ### The concrete run (file names and patterns of the notebook) -/

/-- The deck file the notebook writes (`open("x0.md.in","w")`). -/
def inputFileName : String := "x0.md.in"

/-- The capture file of the invocation (`... > x0.md.out`). -/
def outputFileName : String := "x0.md.out"

/-- Modelled from the spec: `clean.sh` is not in the repository; its glob
patterns are those of §6 and of the recorded `rm` output of the cleanup
cell (`x0.w*`, `sl*`, `x0.u*`, `CR*`). -/
def cleanupPatterns : List String := ["x0.w*", "sl*", "x0.u*", "CR*"]

/-- Look up a scalar parameter of the `&CONTROL` section. -/
def lookupControl (d : SimulationDeck) (key : String) : Option String :=
  (d.control.find? (fun kv => kv.1 == key)).map (fun kv => kv.2)

/-- Strip the single-quote marks of a Fortran-namelist string literal. -/
def stripQuotes (s : String) : String :=
  match s.toList with
  | '\x27' :: rest =>
    if rest ≠ [] ∧ rest.getLast? = some '\x27' then ⟨rest.dropLast⟩ else s
  | _ => s

/-- The run prefix declared inside the deck: the unquoted value of the
`&CONTROL` parameter named "prefix". -/
def declaredRunTag (d : SimulationDeck) : Option String :=
  (lookupControl d "prefix").map stripQuotes

/- ### The pipeline (cell order of the notebook) -/

/-- The three steps of the orchestrating script, in notebook-cell order. -/
inductive Step where
  | writeStep
  | executeStep
  | cleanupStep
deriving DecidableEq, Repr

/-- The pipeline: the notebook's cells run the deck write, then the single
external-process invocation, then the cleanup, with nothing else between
them. -/
def pipeline : List Step := [.writeStep, .executeStep, .cleanupStep]

/-- Trace events: a step starts, a step runs to completion. -/
inductive Event where
  | started (s : Step)
  | finished (s : Step)
deriving DecidableEq, Repr

/-- The trace of a straight-line, blocking run of a step list: each step
starts and runs to completion before the next starts; no branching and
no looping over steps. -/
def runTrace (steps : List Step) : List Event :=
  steps.flatMap (fun s => [.started s, .finished s])

/-- The non-header lines of each section, in the order the sections are
emitted: the line list that follows that section's header in the deck
text. -/
def sectionBodies (d : SimulationDeck) : List (List String) :=
  [ d.control.map renderKV ++ ["/", ""],
    (systemKVs d).map renderKV ++ ["/", ""],
    d.electrons.map renderKV ++ ["/", ""],
    d.ions.map renderKV ++ ["/", ""],
    d.species.map renderSpecies ++ [""],
    [""],
    d.cellVectors.map renderCell ++ [""],
    d.positions.map renderAtom ]

/-- Interleave headers with their body line lists: each header line is
followed by that section's body. -/
def zipJoin : List String → List (List String) → List String
  | [], _ => []
  | h :: hs, [] => h :: zipJoin hs []
  | h :: hs, b :: bs => h :: (b ++ zipJoin hs bs)

/-! ## Helper lemmas -/

theorem count_zipJoin_eq_zero (h : String) (hs : List String)
    (bs : List (List String)) (hh : h ∉ hs) (hb : ∀ b ∈ bs, h ∉ b) :
    (zipJoin hs bs).count h = 0 := by
  induction hs generalizing bs with
  | nil => simp [zipJoin]
  | cons x xs ih =>
    have hx : ¬ (x == h) = true := by
      simp only [beq_iff_eq]
      intro e
      exact hh (by simp [e])
    have hh' : h ∉ xs := fun hc => hh (List.mem_cons_of_mem _ hc)
    cases bs with
    | nil =>
      rw [show zipJoin (x :: xs) [] = x :: zipJoin xs [] from rfl, List.count_cons]
      rw [ih [] hh' (by simp)]
      simp [hx]
    | cons b bs' =>
      rw [show zipJoin (x :: xs) (b :: bs') = x :: (b ++ zipJoin xs bs') from rfl,
        List.count_cons, List.count_append]
      rw [List.count_eq_zero.mpr (hb b (by simp)),
        ih bs' hh' (fun b' hb' => hb b' (List.mem_cons_of_mem _ hb'))]
      simp [hx]

theorem count_zipJoin_one (h : String) (hs : List String)
    (bs : List (List String)) (hnd : hs.Nodup) (hmem : h ∈ hs)
    (hb : ∀ b ∈ bs, h ∉ b) : (zipJoin hs bs).count h = 1 := by
  induction hs generalizing bs with
  | nil => cases hmem
  | cons x xs ih =>
    obtain ⟨hx, hxs⟩ := List.nodup_cons.mp hnd
    rcases List.mem_cons.mp hmem with rfl | hmem'
    · cases bs with
      | nil =>
        rw [show zipJoin (h :: xs) [] = h :: zipJoin xs [] from rfl, List.count_cons]
        rw [count_zipJoin_eq_zero h xs [] hx (by simp)]
        simp
      | cons b bs' =>
        rw [show zipJoin (h :: xs) (b :: bs') = h :: (b ++ zipJoin xs bs') from rfl,
          List.count_cons, List.count_append]
        rw [List.count_eq_zero.mpr (hb b (by simp)),
          count_zipJoin_eq_zero h xs bs' hx
            (fun b' hb' => hb b' (List.mem_cons_of_mem _ hb'))]
        simp
    · have hxne : ¬ (x == h) = true := by
        simp only [beq_iff_eq]
        intro e
        subst e
        exact hx hmem'
      cases bs with
      | nil =>
        rw [show zipJoin (x :: xs) [] = x :: zipJoin xs [] from rfl, List.count_cons]
        rw [ih [] hxs hmem' (by simp)]
        simp [hxne]
      | cons b bs' =>
        rw [show zipJoin (x :: xs) (b :: bs') = x :: (b ++ zipJoin xs bs') from rfl,
          List.count_cons, List.count_append]
        rw [List.count_eq_zero.mpr (hb b (by simp)),
          ih bs' hxs hmem' (fun b' hb' => hb b' (List.mem_cons_of_mem _ hb'))]
        simp [hxne]

theorem deckLines_eq_zipJoin (d : SimulationDeck) :
    deckLines d = "" :: zipJoin (sectionHeaders d) (sectionBodies d) := by
  simp [deckLines, sectionHeaders, sectionBodies, zipJoin, renderNamelist]

theorem not_mem_sectionBodies (d : SimulationDeck) (h : String)
    (hnb : h ∉ bodyLines d) : ∀ b ∈ sectionBodies d, h ∉ b := by
  intro b hb hmem
  apply hnb
  simp only [sectionBodies, List.mem_cons, List.not_mem_nil, or_false] at hb
  simp only [bodyLines, List.map_append, List.mem_append, List.mem_cons,
    List.mem_singleton, List.not_mem_nil, or_false]
  rcases hb with rfl | rfl | rfl | rfl | rfl | rfl | rfl | rfl
  all_goals try simp only [List.mem_append, List.mem_cons, List.mem_singleton,
    List.not_mem_nil, or_false] at hmem
  all_goals tauto

theorem cleanupStep_eq_filter (fs : List String) (p : String) :
    cleanupStep fs p = fs.filter (fun f => !globMatch p f) := by
  unfold cleanupStep
  split
  · rfl
  · next hno =>
    symm
    rw [List.filter_eq_self]
    intro a ha
    have : ¬ globMatch p a = true := by
      intro hm
      exact hno (List.any_eq_true.mpr ⟨a, ha, hm⟩)
    simp [this]

theorem cleanup_eq_filter (pats : List String) (fs : List String) :
    cleanup pats fs = fs.filter (fun f => pats.all (fun p => !globMatch p f)) := by
  induction pats generalizing fs with
  | nil => simp [cleanup]
  | cons p ps ih =>
    have hstep : cleanup (p :: ps) fs = cleanup ps (cleanupStep fs p) := rfl
    rw [hstep, ih, cleanupStep_eq_filter, List.filter_filter]
    apply List.filter_congr
    intro f _
    simp [Bool.and_comm]

/-! ## Claim theorems -/

/-- C1: for every `SimulationDeck` violating either count invariant
(declared atom count ≠ number of coordinate rows, or declared
species-type count ≠ number of distinct species rows), `buildDeck` fails
with `MalformedDeckError` and produces no output text; for every deck
satisfying both invariants it never fails. -/
theorem buildDeck_count_invariant (d : SimulationDeck) :
    (¬ deckValid d → buildDeck d = .error DeckError.malformedDeck) ∧
    (deckValid d → buildDeck d = .ok (deckText d)) := by
  constructor <;> intro h <;> simp [buildDeck, h]

theorem buildDeck_count_invariant_witness :
    buildDeck truncatedDeck = .error DeckError.malformedDeck ∧
    buildDeck sourceDeck = .ok (deckText sourceDeck) :=
  ⟨(buildDeck_count_invariant truncatedDeck).1 (by decide),
   (buildDeck_count_invariant sourceDeck).2 (by decide)⟩

set_option maxRecDepth 16384 in
/-- C3: for the notebook's concrete deck (6 atoms — 2 Ti, 4 O — and 2
species), `buildDeck` succeeds and the emitted text contains `nat = 6`
and `ntyp = 2`, with exactly 6 coordinate rows and exactly 2 species
rows; removing one coordinate row while the declared atom count stays 6
makes `buildDeck` raise `MalformedDeckError`. -/
theorem buildDeck_concrete_scenario :
    buildDeck sourceDeck = .ok (deckText sourceDeck) ∧
    strContains (deckText sourceDeck) "nat = 6" = true ∧
    strContains (deckText sourceDeck) "ntyp = 2" = true ∧
    (rowsAfter (deckLines sourceDeck) "ATOMIC_POSITIONS angstrom").length = 6 ∧
    (rowsAfter (deckLines sourceDeck) "ATOMIC_SPECIES").length = 2 ∧
    buildDeck truncatedDeck = .error DeckError.malformedDeck := by
  refine ⟨rfl, ?_, ?_, ?_, ?_, rfl⟩ <;> decide

/-- C5: for every valid deck, `buildDeck` produces a text, and writing
that text to a file and reading the file back yields content
byte-identical to the string `buildDeck` produced. -/
theorem deck_write_read_roundTrip (d : SimulationDeck) (path : String)
    (fs : FileStore) (hv : deckValid d) :
    ∃ t, buildDeck d = .ok t ∧
      readFile (writeFile fs path t) path = some t :=
  ⟨deckText d, by simp [buildDeck, hv], by simp [readFile, writeFile]⟩

theorem deck_write_read_roundTrip_witness :
    ∃ t, buildDeck sourceDeck = .ok t ∧
      readFile (writeFile (fun _ => none) inputFileName t) inputFileName
        = some t :=
  deck_write_read_roundTrip sourceDeck inputFileName (fun _ => none) (by decide)

/-- C6: `execute` blocks until the external process terminates and
returns its exit code unmodified; a non-zero exit code is returned, not
raised (a stub binary exiting with code 1 makes `execute` return 1). -/
theorem execute_returns_exit_code (p : ExternalProcess)
    (h : p.launchable = true) : execute p = .ok p.exitCode := by
  simp [execute, h]

theorem execute_returns_exit_code_witness :
    execute { launchable := true, exitCode := 1 } = .ok 1 :=
  execute_returns_exit_code { launchable := true, exitCode := 1 } rfl

/-- C8: the pipeline is strictly sequential with no branching and no
loops: the run trace is exactly write-start, write-finish, execute-start,
execute-finish, cleanup-start, cleanup-finish, and the external binary is
invoked exactly once per run. -/
theorem pipeline_sequential_single_invocation :
    runTrace pipeline =
      [ .started .writeStep, .finished .writeStep,
        .started .executeStep, .finished .executeStep,
        .started Step.cleanupStep, .finished Step.cleanupStep ] ∧
    pipeline.count .executeStep = 1 ∧
    pipeline.count .writeStep = 1 ∧
    pipeline.count Step.cleanupStep = 1 := by
  refine ⟨rfl, ?_, ?_, ?_⟩ <;> decide

/-- C9: every stage of the run uses the run prefix `x0`: the prefix
declared inside the deck is `x0`, and it is the basename prefix of the
input file `x0.md.in`, of the output file `x0.md.out`, and of the
prefix-scoped cleanup patterns `x0.w*` and `x0.u*`. -/
theorem run_prefix_coherence :
    declaredRunTag sourceDeck = some "x0" ∧
    inputFileName = "x0" ++ ".md.in" ∧
    outputFileName = "x0" ++ ".md.out" ∧
    cleanupPatterns = ["x0" ++ ".w*", "sl*", "x0" ++ ".u*", "CR*"] := by
  refine ⟨?_, rfl, rfl, rfl⟩
  decide

/-- C2: `cleanup` is idempotent — a second invocation on the state left
by a first invocation with the same patterns changes nothing (every
matching file was already removed: after the first run no pattern
matches any remaining file) — and a pattern matching zero files is a
no-op, never an error. -/
theorem cleanup_idempotent (pats : List String) (fs : List String) (p : String) :
    cleanup pats (cleanup pats fs) = cleanup pats fs ∧
    (pats.all fun q => !((cleanup pats fs).any fun f => globMatch q f)) = true ∧
    ((fs.any fun f => globMatch p f) = false → cleanupStep fs p = fs) := by
  refine ⟨?_, ?_, ?_⟩
  · rw [cleanup_eq_filter, cleanup_eq_filter, List.filter_filter]
    apply List.filter_congr
    intro f _
    simp
  · rw [cleanup_eq_filter]
    simp only [List.all_eq_true, Bool.not_eq_true', List.any_eq_false]
    intro q hq f hf
    rw [List.mem_filter] at hf
    have := List.all_eq_true.mp hf.2 q hq
    simpa using this
  · intro hno
    unfold cleanupStep
    simp [hno]

theorem cleanup_idempotent_witness :
    cleanup cleanupPatterns (cleanup cleanupPatterns ["x0.wfc1", "sl_log", "data"])
        = cleanup cleanupPatterns ["x0.wfc1", "sl_log", "data"] ∧
    cleanupStep ["x0.md.in", "x0.md.out"] "CR*" = ["x0.md.in", "x0.md.out"] :=
  ⟨(cleanup_idempotent cleanupPatterns ["x0.wfc1", "sl_log", "data"] "CR*").1,
   (cleanup_idempotent cleanupPatterns ["x0.md.in", "x0.md.out"] "CR*").2.2 (by decide)⟩

/-- C10: the cleanup step never deletes the deck input file or the
captured output file: no cleanup glob pattern (`x0.w*`, `sl*`, `x0.u*`,
`CR*`) matches `x0.md.in` or `x0.md.out`, so both files survive
`cleanup` in any directory state. -/
theorem cleanup_preserves_deck_files (fs : List String) :
    (cleanupPatterns.all fun p => !globMatch p inputFileName) = true ∧
    (cleanupPatterns.all fun p => !globMatch p outputFileName) = true ∧
    (inputFileName ∈ fs → inputFileName ∈ cleanup cleanupPatterns fs) ∧
    (outputFileName ∈ fs → outputFileName ∈ cleanup cleanupPatterns fs) := by
  refine ⟨by decide, by decide, ?_, ?_⟩ <;>
    · intro hmem
      rw [cleanup_eq_filter]
      exact List.mem_filter.mpr ⟨hmem, by decide⟩

theorem cleanup_preserves_deck_files_witness :
    inputFileName ∈ cleanup cleanupPatterns [inputFileName, outputFileName] ∧
    outputFileName ∈ cleanup cleanupPatterns [inputFileName, outputFileName] :=
  ⟨(cleanup_preserves_deck_files [inputFileName, outputFileName]).2.2.1 (by decide),
   (cleanup_preserves_deck_files [inputFileName, outputFileName]).2.2.2 (by decide)⟩

/-- C4 as stated is false on the notebook's write cell: the claim demands
the handle be closed on every exit path including a failing write, but
the cell runs `open`, `write`, `close` as three sequential statements
with no scoping, so on the run where the path is writable and the write
call fails, a handle is acquired and never closed. -/
theorem writeDeck_not_scoped_counterexample :
    ¬ ((writeDeckRun { pathWritable := true, writeSucceeds := false }).opened = true →
       (writeDeckRun { pathWritable := true, writeSucceeds := false }).closed = true) := by
  decide

/-- C4 amended: `writeDeck` opens the file, writes the text, and closes
the handle in sequence, and it fails with `IOError` when the path is
unwritable (before any handle is acquired); the handle is guaranteed
closed only on the successful exit path — when the write itself fails,
the exception propagates and the close is skipped. -/
theorem writeDeck_exit_paths (r : WriteRun) :
    (r.pathWritable = false →
      writeDeckRun r = { opened := false, closed := false, error := some .ioUnwritable }) ∧
    (r.pathWritable = true → r.writeSucceeds = true →
      writeDeckRun r = { opened := true, closed := true, error := none }) ∧
    (r.pathWritable = true → r.writeSucceeds = false →
      writeDeckRun r = { opened := true, closed := false, error := some .writeFailed }) := by
  obtain ⟨pw, ws⟩ := r
  cases pw <;> cases ws <;> simp [writeDeckRun]

theorem writeDeck_exit_paths_witness :
    writeDeckRun { pathWritable := false, writeSucceeds := true }
        = { opened := false, closed := false, error := some .ioUnwritable } ∧
    writeDeckRun { pathWritable := true, writeSucceeds := true }
        = { opened := true, closed := true, error := none } ∧
    writeDeckRun { pathWritable := true, writeSucceeds := false }
        = { opened := true, closed := false, error := some .writeFailed } :=
  ⟨(writeDeck_exit_paths { pathWritable := false, writeSucceeds := true }).1 rfl,
   (writeDeck_exit_paths { pathWritable := true, writeSucceeds := true }).2.1 rfl rfl,
   (writeDeck_exit_paths { pathWritable := true, writeSucceeds := false }).2.2 rfl rfl⟩

/-- C7: for every deck satisfying the count invariant (and whose field
values do not themselves collide with a section header line), `buildDeck`
succeeds and the emitted deck lines contain exactly one header line per
declared section. -/
theorem buildDeck_section_headers (d : SimulationDeck)
    (hv : deckValid d) (hw : deckWf d) :
    buildDeck d = .ok (deckText d) ∧
    ∀ h ∈ sectionHeaders d, (deckLines d).count h = 1 := by
  refine ⟨by simp [buildDeck, hv], ?_⟩
  intro h hmem
  have hnb : h ∉ bodyLines d := fun hin => (hw.2 h hin) hmem
  have hne : ¬ (("" : String) == h) = true := by
    simp only [beq_iff_eq]
    intro e
    subst e
    exact hnb (by simp [bodyLines])
  rw [deckLines_eq_zipJoin, List.count_cons,
    count_zipJoin_one h (sectionHeaders d) (sectionBodies d) hw.1 hmem
      (not_mem_sectionBodies d h hnb)]
  simp [hne]

theorem buildDeck_section_headers_witness :
    deckValid sourceDeck ∧ deckWf sourceDeck ∧
    (deckLines sourceDeck).count "&CONTROL" = 1 :=
  ⟨by decide, by decide,
   (buildDeck_section_headers sourceDeck (by decide) (by decide)).2
      "&CONTROL" (by decide)⟩

end QETutorial
